import Mathlib

/-
Shallow embedding of the OTP-authentication core of the appre-services
repository (Rust), together with proofs about the claims of its
specification.

Conventions of the embedding:
* Rust `String`/`&str` values are modelled as `List Nat` (their UTF-8 bytes);
  `ascii` converts a Lean string literal of ASCII characters to that form.
* Rust `i64` timestamps are modelled as `Int`; `u8`/`usize` as `Nat`.
* The two DynamoDB tables are modelled as Lean lists of the stored records;
  a DynamoDB `query` with a key condition is modelled as a filter over the
  list, and `scan_index_forward(false).limit(1)` (items sorted by the numeric
  sort key, most recent first, at most one) as the maximum of the matching
  sort keys.
* `current_timestamp()` and the random draw of `rand::thread_rng` are passed
  in as explicit parameters (`now`, `draw`).
* Fallible external calls whose outcome the handler inspects are passed in as
  `Except AuthError Unit` parameters; side effects are reported as an explicit
  action trace.
-/

def ascii (s : String) : List Nat := s.data.map Char.toNat

/-- Association-list lookup, modelling `HashMap::get`. -/
def lookupA (m : List (List Nat × List Nat)) (k : List Nat) : Option (List Nat) :=
  (m.find? (fun p => p.1 == k)).map (fun p => p.2)

/-- Modelling Rust `char::is_ascii_digit` on a byte. -/
def is_ascii_digit (c : Nat) : Bool := decide (48 ≤ c) && decide (c ≤ 57)

/-! ## Secret Codec — `authentication/shared/src/utils.rs`

`hash_otp` is `sha2::Sha256` over the raw secret bytes followed by
`hex::encode`; the SHA-256 compression function is spelled out below
(FIPS 180-4), operating on `Nat` with explicit reduction modulo `2^32`. -/

def w32 (x : Nat) : Nat := x % 4294967296

def rotr (n x : Nat) : Nat := w32 ((x >>> n) ||| (x <<< (32 - n)))

def compl32 (x : Nat) : Nat := x ^^^ 4294967295

def bsig0 (x : Nat) : Nat := rotr 2 x ^^^ rotr 13 x ^^^ rotr 22 x
def bsig1 (x : Nat) : Nat := rotr 6 x ^^^ rotr 11 x ^^^ rotr 25 x
def ssig0 (x : Nat) : Nat := rotr 7 x ^^^ rotr 18 x ^^^ (x >>> 3)
def ssig1 (x : Nat) : Nat := rotr 17 x ^^^ rotr 19 x ^^^ (x >>> 10)

def chf (x y z : Nat) : Nat := (x &&& y) ^^^ (compl32 x &&& z)
def majf (x y z : Nat) : Nat := (x &&& y) ^^^ (x &&& z) ^^^ (y &&& z)

structure Hash8 where
  a : Nat
  b : Nat
  c : Nat
  d : Nat
  e : Nat
  f : Nat
  g : Nat
  h : Nat
deriving Repr, DecidableEq

/-- The 64 SHA-256 round constants of FIPS 180-4 (the first 32 bits of the
fractional parts of the cube roots of the first 64 primes), written in
decimal. -/
def sha256K : List Nat :=
  [1116352408, 1899447441, 3049323471, 3921009573, 961987163, 1508970993,
   2453635748, 2870763221, 3624381080, 310598401, 607225278, 1426881987,
   1925078388, 2162078206, 2614888103, 3248222580, 3835390401, 4022224774,
   264347078, 604807628, 770255983, 1249150122, 1555081692, 1996064986,
   2554220882, 2821834349, 2952996808, 3210313671, 3336571891, 3584528711,
   113926993, 338241895, 666307205, 773529912, 1294757372, 1396182291,
   1695183700, 1986661051, 2177026350, 2456956037, 2730485921, 2820302411,
   3259730800, 3345764771, 3516065817, 3600352804, 4094571909, 275423344,
   430227734, 506948616, 659060556, 883997877, 958139571, 1322822218,
   1537002063, 1747873779, 1955562222, 2024104815, 2227730452, 2361852424,
   2428436474, 2756734187, 3204031479, 3329325298]

def sha256Init : Hash8 :=
  ⟨1779033703, 3144134277, 1013904242, 2773480762,
   1359893119, 2600822924, 528734635, 1541459225⟩

/-- Big-endian 64-bit length encoding (8 bytes). -/
def be64 (n : Nat) : List Nat :=
  [(n >>> 56) % 256, (n >>> 48) % 256, (n >>> 40) % 256, (n >>> 32) % 256,
   (n >>> 24) % 256, (n >>> 16) % 256, (n >>> 8) % 256, n % 256]

/-- SHA-256 padding: a `0x80` byte, zeros to 56 mod 64, then the bit length. -/
def padMsg (msg : List Nat) : List Nat :=
  msg ++ 128 :: List.replicate ((64 - ((msg.length + 9) % 64)) % 64) 0 ++ be64 (8 * msg.length)

/-- Group bytes into big-endian 32-bit words. -/
def toWords : List Nat → List Nat
  | b0 :: b1 :: b2 :: b3 :: rest =>
      ((((b0 <<< 8) ||| b1) <<< 8 ||| b2) <<< 8 ||| b3) :: toWords rest
  | _ => []

/-- Extend the 16-word message schedule to 64 words; `rws` holds the schedule
built so far in reverse. -/
def extendW : Nat → List Nat → List Nat
  | 0, rws => rws.reverse
  | n + 1, rws =>
      let nw := w32 (ssig1 (rws.getD 1 0) + rws.getD 6 0 + ssig0 (rws.getD 14 0) + rws.getD 15 0)
      extendW n (nw :: rws)

def scheduleW (block : List Nat) : List Nat := extendW 48 (toWords block).reverse

def roundStep (s : Hash8) (wk : Nat × Nat) : Hash8 :=
  let t1 := w32 (s.h + bsig1 s.e + chf s.e s.f s.g + wk.2 + wk.1)
  let t2 := w32 (bsig0 s.a + majf s.a s.b s.c)
  ⟨w32 (t1 + t2), s.a, s.b, s.c, w32 (s.d + t1), s.e, s.f, s.g⟩

def compress (h : Hash8) (block : List Nat) : Hash8 :=
  let f := ((scheduleW block).zip sha256K).foldl roundStep h
  ⟨w32 (h.a + f.a), w32 (h.b + f.b), w32 (h.c + f.c), w32 (h.d + f.d),
   w32 (h.e + f.e), w32 (h.f + f.f), w32 (h.g + f.g), w32 (h.h + f.h)⟩

/-- Iterate `compress` over successive 64-byte blocks; the fuel argument makes
the recursion structural and is instantiated with the (padded) message length,
an upper bound on the number of blocks. -/
def processBlocksAux : Nat → Hash8 → List Nat → Hash8
  | 0, h, _ => h
  | _ + 1, h, [] => h
  | fuel + 1, h, l => processBlocksAux fuel (compress h (l.take 64)) (l.drop 64)

def processBlocks (h : Hash8) (l : List Nat) : Hash8 := processBlocksAux l.length h l

def be32 (x : Nat) : List Nat :=
  [(x >>> 24) % 256, (x >>> 16) % 256, (x >>> 8) % 256, x % 256]

def digestBytes (h : Hash8) : List Nat :=
  be32 h.a ++ be32 h.b ++ be32 h.c ++ be32 h.d ++ be32 h.e ++ be32 h.f ++ be32 h.g ++ be32 h.h

/-- SHA-256 of a byte string, as a list of 32 bytes. -/
def sha256 (msg : List Nat) : List Nat := digestBytes (processBlocks sha256Init (padMsg msg))

def hexDigit (n : Nat) : Nat := if n < 10 then 48 + n else 87 + n

def hexByte (b : Nat) : List Nat := [hexDigit (b / 16), hexDigit (b % 16)]

/-- Modelling `hex::encode`. -/
def hexEncode (l : List Nat) : List Nat := (l.map hexByte).flatten

/-- `utils.rs: hash_otp` — SHA-256 of the OTP bytes, hex encoded. -/
def hash_otp (otp : List Nat) : List Nat := hexEncode (sha256 otp)

/-- `utils.rs: constant_time_eq` — length check, then OR-accumulated XOR of
the byte pairs, compared with zero. -/
def constant_time_eq (a b : List Nat) : Bool :=
  if a.length != b.length then false
  else ((a.zip b).foldl (fun r p => r ||| (p.1 ^^^ p.2)) 0) == 0

/-- `utils.rs: verify_otp` — recompute the digest of the candidate and compare
it with the stored digest in constant time. -/
def verify_otp (otp hash : List Nat) : Bool := constant_time_eq (hash_otp otp) hash

/-- Decimal digits of `n` as ASCII bytes (most significant first), modelling
Rust's decimal `Display` of an integer; the fuel argument makes the recursion
structural and `n + 1` always suffices. -/
def natDigitsAux : Nat → Nat → List Nat
  | 0, _ => []
  | fuel + 1, n => if n < 10 then [48 + n] else natDigitsAux fuel (n / 10) ++ [48 + n % 10]

def natDigits (n : Nat) : List Nat := natDigitsAux (n + 1) n

/-- Modelling the `{:06}` format specifier: left-pad with ASCII zeros to
width 6. -/
def zeroPad6 (s : List Nat) : List Nat := List.replicate (6 - s.length) 48 ++ s

/-- Modelling `rand::Rng::gen_range(lo..=hi)`: a uniformly distributed value
of the inclusive range, as a function of the random draw. -/
def gen_range (lo hi draw : Nat) : Nat := lo + draw % (hi - lo + 1)

/-- `utils.rs: generate_otp` — `format!("{:06}", rng.gen_range(100000..=999999))`,
with the random draw passed in explicitly. -/
def generate_otp (draw : Nat) : List Nat := zeroPad6 (natDigits (gen_range 100000 999999 draw))

/-- `utils.rs: is_valid_email`. -/
def is_valid_email (email : List Nat) : Bool :=
  email.contains 64 && email.contains 46 && decide (email.length > 5)

/-- Specification-side decode of an ASCII-decimal string back to its numeric
value (used to state claims about the value of a generated secret). -/
def decimalValue (s : List Nat) : Nat := s.foldl (fun acc c => acc * 10 + (c - 48)) 0

/-! ## Data model — `lambda/shared/src/models.rs`, `shared/src/errors.rs` -/

inductive UserStatus where
  | RegistrationEmailNotVerified
  | RegistrationNeedUserInfo
  | RegistrationNeedStripe
  | AwaitingReview
  | Active
  | Rejected
deriving Repr, DecidableEq

structure UserProfile where
  user_id : List Nat
  email : List Nat
  status : UserStatus
  full_name : Option (List Nat)
  content_description : Option (List Nat)
  content_link : Option (List Nat)
  stripe_account_id : Option (List Nat)
  created_at : Int
  updated_at : Int
  reviewed_by : Option (List Nat)
  reviewed_at : Option Int
  rejection_reason : Option (List Nat)
deriving Repr, DecidableEq

structure OTPRecord where
  email : List Nat
  otp_hash : List Nat
  created_at : Int
  expires_at : Int
  ttl : Int
  challenge_id : List Nat
  attempts : Nat
deriving Repr, DecidableEq

structure RateLimitRecord where
  email : List Nat
  request_timestamp : Int
  ttl : Int
deriving Repr, DecidableEq

inductive AuthError where
  | RateLimitExceeded (msg : List Nat)
  | InvalidOTP (msg : List Nat)
  | OTPExpired
  | UserNotFound (msg : List Nat)
  | EmailDeliveryFailed (msg : List Nat)
  | DynamoDBError (msg : List Nat)
  | SESError (msg : List Nat)
  | ValidationError (msg : List Nat)
  | InternalError (msg : List Nat)
deriving Repr, DecidableEq

/-! ## Rate Limiter — `shared/src/services/rate_limit_service.rs`

The rate-limit table is a list of `RateLimitRecord`s; the DynamoDB query with
key condition `email = :email AND request_timestamp > :timestamp` is the
corresponding filter. -/

def queryRateLimit (table : List RateLimitRecord) (email : List Nat) (now : Int) :
    List RateLimitRecord :=
  table.filter (fun r => r.email == email && decide (r.request_timestamp > now - 15 * 60))

/-- `check_rate_limit` — allowed iff fewer than 3 requests in the trailing
15 minutes. -/
def check_rate_limit (table : List RateLimitRecord) (email : List Nat) (now : Int) : Bool :=
  if (queryRateLimit table email now).length ≥ 3 then false else true

/-- `record_request` — append one entry with `request_timestamp = now` and
TTL 15 minutes later. -/
def record_request (table : List RateLimitRecord) (email : List Nat) (now : Int) :
    List RateLimitRecord :=
  table ++ [⟨email, now, now + 15 * 60⟩]

/-- `get_rate_limit_reset_time` — query in-window entries most recent first
with `limit(1)` (i.e. take the greatest in-window `request_timestamp`), and
return `timestamp + 15*60 - now` clamped at 0; `none` when no entry is in
the window. -/
def get_rate_limit_reset_time (table : List RateLimitRecord) (email : List Nat) (now : Int) :
    Option Int :=
  match ((queryRateLimit table email now).map (fun r => r.request_timestamp)).max? with
  | none => none
  | some t => some (max (t + 15 * 60 - now) 0)

/-! ## User Directory / OTP Store — `lambda/shared/src/services/dynamodb_service.rs` -/

/-- `get_otp` — DynamoDB `get_item` on the OTP table, keyed by email. -/
def get_otp (table : List OTPRecord) (email : List Nat) : Option OTPRecord :=
  table.find? (fun r => r.email == email)

/-- `get_user_by_email` — query on the email GSI with `limit(1)`. -/
def get_user_by_email (table : List UserProfile) (email : List Nat) : Option UserProfile :=
  (table.filter (fun u => u.email == email)).head?

/-- `update_user_status_to_need_user_info` — look the user up by email
(`ValidationError "User not found"` when absent), then unconditionally set
`status = REGISTRATION_NEED_USER_INFO` and `updated_at = now` on that
`user_id`. Returns the updated table. -/
def update_user_status_to_need_user_info (table : List UserProfile) (email : List Nat)
    (now : Int) : Except AuthError (List UserProfile) :=
  match get_user_by_email table email with
  | none => .error (.ValidationError (ascii "User not found"))
  | some user =>
      .ok (table.map (fun v =>
        if v.user_id == user.user_id then
          { v with status := .RegistrationNeedUserInfo, updated_at := now }
        else v))

/-- Modelled from the spec: the two-argument `create_user(email, user_id)` of
the `auth_shared` DynamoDB service. `shared/src/services.rs` declares
`pub mod dynamodb_service`, but that file is absent from the sources; the copy
under `lambda/shared` takes only an email (and generates a random UUID), so it
cannot be the function that `create-auth-challenge` calls with two arguments.
Per spec §4.4, `createIfAbsent(email, externalId)` creates a `UserRecord` with
`status = UNVERIFIED` (`REGISTRATION_EMAIL_NOT_VERIFIED`) whose `userId` is
the supplied external identifier. -/
def create_user (email user_id : List Nat) (now : Int) : UserProfile :=
  { user_id := user_id
    email := email
    status := .RegistrationEmailNotVerified
    full_name := none
    content_description := none
    content_link := none
    stripe_account_id := none
    created_at := now
    updated_at := now
    reviewed_by := none
    reviewed_at := none
    rejection_reason := none }

/-! ## Challenge Orchestrator — `lambda/define-auth-challenge/src/main.rs` -/

def CUSTOM : List Nat := ascii "CUSTOM_CHALLENGE"

/-- `aws_lambda_events::cognito::CognitoEventUserPoolsChallengeResult`
(note: `challenge_result` is a plain `bool`, not an `Option`). -/
structure ChallengeResultEntry where
  challenge_name : Option (List Nat)
  challenge_result : Bool
  challenge_metadata : Option (List Nat)
deriving Repr, DecidableEq

structure DefineAuthResponse where
  challenge_name : Option (List Nat)
  issue_tokens : Bool
  fail_authentication : Bool
deriving Repr, DecidableEq

structure DefineAuthEvent where
  user_attributes : List (List Nat × List Nat)
  client_metadata : List (List Nat × List Nat)
  user_name : Option (List Nat)
  session : List (Option ChallengeResultEntry)
deriving Repr, DecidableEq

/-- Email extraction of `handle_define_challenge` (lines 66–76): user
attributes, then client metadata, then the header user name, then a
placeholder — never an error. -/
def extract_email (event : DefineAuthEvent) : List Nat :=
  match lookupA event.user_attributes (ascii "email") with
  | some email => email
  | none =>
    match lookupA event.client_metadata (ascii "email") with
    | some email => email
    | none =>
      match event.user_name with
      | some user_name => user_name
      | none => ascii "debug@placeholder.com"

/-- `session.iter().filter_map(|o| o.as_ref()).any(|r| r.challenge_name.as_deref() == Some(CUSTOM))`. -/
def has_custom_challenge (session : List (Option ChallengeResultEntry)) : Bool :=
  (session.filterMap id).any (fun r => r.challenge_name == some CUSTOM)

/-- `session.iter().rev().filter_map(|o| o.as_ref()).find(|r| r.challenge_name.as_deref() == Some(CUSTOM))`. -/
def last_custom (session : List (Option ChallengeResultEntry)) : Option ChallengeResultEntry :=
  (session.reverse.filterMap id).find? (fun r => r.challenge_name == some CUSTOM)

/-- `handle_define_challenge` (lines 84–152): the decision is the match on
`(has_custom_challenge, last_custom.map(challenge_result))`; the extracted
email is used only for logging in the source. -/
def handle_define_challenge (event : DefineAuthEvent) : DefineAuthResponse :=
  let _email := extract_email event
  match has_custom_challenge event.session,
        (last_custom event.session).map (fun r => r.challenge_result) with
  | false, _ => ⟨some CUSTOM, false, false⟩
  | true, some true => ⟨none, true, false⟩
  | true, some false => ⟨none, false, true⟩
  | true, none => ⟨none, false, true⟩

/-- `function_handler` of define-auth-challenge (lines 11–31): on an inner
error it still returns `Ok`, overwriting the response with a fresh
`CUSTOM_CHALLENGE` issuance (`issue_tokens = false`,
`fail_authentication = false`). -/
def define_function_handler (inner : Except AuthError DefineAuthResponse) : DefineAuthResponse :=
  match inner with
  | .ok r => r
  | .error _ => ⟨some CUSTOM, false, false⟩

/-! ## OTP Issuance — `lambda/create-auth-challenge/src/main.rs` -/

structure CreateAuthResponse where
  public_challenge_parameters : List (List Nat × List Nat)
  private_challenge_parameters : List (List Nat × List Nat)
  challenge_metadata : Option (List Nat)
deriving Repr, DecidableEq

/-- `function_handler` of create-auth-challenge (lines 51–70): on an inner
error it still returns `Ok`, with empty public and private challenge
parameters and metadata `"ERROR"`. -/
def create_function_handler (inner : Except AuthError CreateAuthResponse) : CreateAuthResponse :=
  match inner with
  | .ok r => r
  | .error _ => ⟨[], [], some (ascii "ERROR")⟩

/-- Rate-limit stage of `handle_create_challenge` (lines 143–165): when the
check disallows, fail with `RateLimitExceeded` carrying the human-readable
retry message built from the reset time (minutes clamped to at least 1). -/
def create_rate_limit_stage (table : List RateLimitRecord) (email : List Nat) (now : Int) :
    Except AuthError Unit :=
  if check_rate_limit table email now then .ok ()
  else
    let reset_time := get_rate_limit_reset_time table email now
    let reset_minutes := (reset_time.getD 0) / 60
    .error (.RateLimitExceeded
      (ascii "Too many requests. Try again in " ++ natDigits (max reset_minutes 1).toNat
        ++ ascii " minutes."))

/-- User-provisioning stage of `handle_create_challenge` (lines 167–201): use
the existing user when present; otherwise create one with the Cognito
`user_name` (the Cognito sub) as the `user_id`, failing when that header is
absent. -/
def create_challenge_user_stage (usersTable : List UserProfile) (email : List Nat)
    (cognito_user_name : Option (List Nat)) (now : Int) : Except AuthError UserProfile :=
  match get_user_by_email usersTable email with
  | some user => .ok user
  | none =>
    match cognito_user_name with
    | none => .error (.InternalError (ascii "Cognito user_name not available"))
    | some cognito_user_id => .ok (create_user email cognito_user_id now)

/-! ## OTP Verification — `lambda/verify-auth-challenge/src/main.rs` -/

structure VerifyAuthEvent where
  user_attributes : List (List Nat × List Nat)
  client_metadata : Option (List (List Nat × List Nat))
  challenge_answer : Option (List Nat)
deriving Repr, DecidableEq

/-- Side effects attempted by the verification handler, in order. -/
inductive VerifyAction where
  | deleteOtp (email : List Nat)
  | updateUserStatus (email : List Nat)
  | setEmailVerified (email : List Nat)
deriving Repr, DecidableEq

deriving instance DecidableEq for Except

structure VerifyOutcome where
  result : Except AuthError Bool
  actions : List VerifyAction
deriving Repr, DecidableEq

/-- Email extraction of `handle_verify_challenge` (lines 72–87): user
attributes, then client metadata, otherwise a `ValidationError`. -/
def verify_extract_email (event : VerifyAuthEvent) : Except AuthError (List Nat) :=
  match lookupA event.user_attributes (ascii "email") with
  | some email => .ok email
  | none =>
    match event.client_metadata with
    | some client_metadata =>
      match lookupA client_metadata (ascii "email") with
      | some email => .ok email
      | none => .error (.ValidationError
          (ascii "Email not found in user attributes or client metadata"))
    | none => .error (.ValidationError
        (ascii "Email not found in user attributes or client metadata"))

/-- `handle_verify_challenge` (lines 71–186). `otpTable` is the OTP store,
`now` the current timestamp; `deleteRes` is the outcome DynamoDB would give a
`delete_otp` call and `updateRes` the outcome of the user-status update (the
latter is logged and swallowed in the source, as is the Cognito
`email_verified` update). The returned trace lists the attempted side
effects. -/
def handle_verify_challenge (event : VerifyAuthEvent) (otpTable : List OTPRecord) (now : Int)
    (deleteRes : Except AuthError Unit) (updateRes : Except AuthError Unit) : VerifyOutcome :=
  match verify_extract_email event with
  | .error e => ⟨.error e, []⟩
  | .ok email =>
    match event.challenge_answer with
    | none => ⟨.error (.ValidationError (ascii "Challenge answer not provided")), []⟩
    | some challenge_answer =>
      if challenge_answer.length != 6 || !(challenge_answer.all is_ascii_digit) then
        ⟨.ok false, []⟩
      else
        match get_otp otpTable email with
        | none => ⟨.ok false, []⟩
        | some otp_record =>
          if now > otp_record.expires_at then
            ⟨.ok false, [.deleteOtp email]⟩
          else if !(verify_otp challenge_answer otp_record.otp_hash) then
            ⟨.ok false, []⟩
          else
            match deleteRes with
            | .error e => ⟨.error e, [.deleteOtp email]⟩
            | .ok _ =>
              let _ := updateRes
              ⟨.ok true, [.deleteOtp email, .updateUserStatus email, .setEmailVerified email]⟩

/-! ## Properties of the Secret Codec -/

theorem lor_eq_zero_iff (x y : Nat) : x ||| y = 0 ↔ x = 0 ∧ y = 0 := by
  constructor
  · intro h
    constructor
    · by_contra hx
      obtain ⟨i, hi⟩ := Nat.ne_zero_implies_bit_true hx
      have ht := congrArg (fun n => n.testBit i) h
      simp [Nat.testBit_or, hi] at ht
    · by_contra hy
      obtain ⟨i, hi⟩ := Nat.ne_zero_implies_bit_true hy
      have ht := congrArg (fun n => n.testBit i) h
      simp [Nat.testBit_or, hi] at ht
  · rintro ⟨rfl, rfl⟩
    rfl

theorem foldl_or_xor_eq_zero (l : List (Nat × Nat)) (r : Nat) :
    l.foldl (fun r p => r ||| (p.1 ^^^ p.2)) r = 0 ↔ r = 0 ∧ ∀ p ∈ l, p.1 = p.2 := by
  induction l generalizing r with
  | nil => simp
  | cons p t ih =>
    simp only [List.foldl_cons, ih, lor_eq_zero_iff, Nat.xor_eq_zero, List.mem_cons]
    constructor
    · rintro ⟨⟨hr, hp⟩, ht⟩
      exact ⟨hr, fun q hq => hq.elim (fun h => h ▸ hp) (ht q)⟩
    · rintro ⟨hr, hall⟩
      exact ⟨⟨hr, hall p (.inl rfl)⟩, fun q hq => hall q (.inr hq)⟩

theorem eq_of_zip_eq (a : List Nat) : ∀ b : List Nat, a.length = b.length →
    (∀ p ∈ a.zip b, p.1 = p.2) → a = b := by
  induction a with
  | nil =>
    intro b hlen _
    cases b with
    | nil => rfl
    | cons _ _ => simp at hlen
  | cons x t ih =>
    intro b hlen h
    cases b with
    | nil => simp at hlen
    | cons y u =>
      have hx : x = y := h (x, y) (by simp [List.zip_cons_cons])
      have ht : t = u :=
        ih u (by simpa using hlen) (fun p hp => h p (by simp [List.zip_cons_cons, hp]))
      rw [hx, ht]

theorem zip_same_eq (a : List Nat) : ∀ p ∈ a.zip a, p.1 = p.2 := by
  induction a with
  | nil => simp
  | cons x t ih =>
    intro p hp
    simp only [List.zip_cons_cons, List.mem_cons] at hp
    rcases hp with rfl | hp
    · rfl
    · exact ih p hp

theorem constant_time_eq_iff (a b : List Nat) : constant_time_eq a b = true ↔ a = b := by
  unfold constant_time_eq
  cases hlen : (a.length != b.length) with
  | true =>
    simp only [if_pos rfl]
    constructor
    · intro h
      simp at h
    · intro h
      subst h
      simp at hlen
  | false =>
    have hlen' : a.length = b.length := by simpa using hlen
    simp only [Bool.false_eq_true, if_false, beq_iff_eq, foldl_or_xor_eq_zero, true_and]
    constructor
    · exact fun h => eq_of_zip_eq a b hlen' h
    · intro h
      subst h
      exact zip_same_eq a

theorem constant_time_eq_self (a : List Nat) : constant_time_eq a a = true :=
  (constant_time_eq_iff a a).mpr rfl

/-- Value of a digest as a base-256 numeral (little-endian fold). -/
def digestToNat (l : List Nat) : Nat := l.foldr (fun b acc => b + 256 * acc) 0

theorem digestToNat_lt (l : List Nat) (h : ∀ b ∈ l, b < 256) :
    digestToNat l < 256 ^ l.length := by
  induction l with
  | nil => simp [digestToNat]
  | cons b t ih =>
    have hb : b < 256 := h b (List.mem_cons_self _ _)
    have ht : digestToNat t < 256 ^ t.length := ih (fun x hx => h x (List.mem_cons_of_mem _ hx))
    have h2 : 256 * (digestToNat t + 1) ≤ 256 * 256 ^ t.length := Nat.mul_le_mul_left _ ht
    simp only [digestToNat, List.foldr_cons, List.length_cons, pow_succ] at *
    omega

theorem digestToNat_inj (l1 : List Nat) : ∀ l2 : List Nat, l1.length = l2.length →
    (∀ b ∈ l1, b < 256) → (∀ b ∈ l2, b < 256) →
    digestToNat l1 = digestToNat l2 → l1 = l2 := by
  induction l1 with
  | nil =>
    intro l2 hlen _ _ _
    cases l2 with
    | nil => rfl
    | cons _ _ => simp at hlen
  | cons b t ih =>
    intro l2 hlen h1 h2 heq
    cases l2 with
    | nil => simp at hlen
    | cons c u =>
      have hb : b < 256 := h1 b (List.mem_cons_self _ _)
      have hc : c < 256 := h2 c (List.mem_cons_self _ _)
      simp only [digestToNat, List.foldr_cons] at heq
      have hbc : b = c ∧
          t.foldr (fun b acc => b + 256 * acc) 0 = u.foldr (fun b acc => b + 256 * acc) 0 := by
        omega
      obtain ⟨rfl, heq'⟩ := hbc
      have hrec : t = u :=
        ih u (by simpa using hlen) (fun x hx => h1 x (List.mem_cons_of_mem _ hx))
          (fun x hx => h2 x (List.mem_cons_of_mem _ hx)) heq'
      rw [hrec]

theorem mem_be32_lt {b x : Nat} (h : b ∈ be32 x) : b < 256 := by
  simp only [be32, List.mem_cons, List.not_mem_nil, or_false] at h
  rcases h with rfl | rfl | rfl | rfl <;> exact Nat.mod_lt _ (by decide)

theorem sha256_length (m : List Nat) : (sha256 m).length = 32 := by
  simp [sha256, digestBytes, be32]

theorem sha256_mem_lt (m : List Nat) : ∀ b ∈ sha256 m, b < 256 := by
  intro b hb
  simp only [sha256, digestBytes, List.mem_append, or_assoc] at hb
  rcases hb with h | h | h | h | h | h | h | h <;> exact mem_be32_lt h

/-- SHA-256 digests, packed into the finite type of 32-byte values. -/
def shaFin (s : List Nat) : Fin (256 ^ 32) :=
  ⟨digestToNat (sha256 s), by
    have h := digestToNat_lt (sha256 s) (sha256_mem_lt s)
    rwa [sha256_length] at h⟩

set_option maxRecDepth 100000 in
/-- Known-answer test pinning the SHA-256 embedding to the digest the `sha2`
crate computes for the bytes `"123456"`. -/
theorem hash_otp_known_answer :
    hash_otp (ascii "123456") =
      ascii "8d969eef6ecad3c29a3a629280e686cf0c3f5d5a86aff3ca12020c923adc6c92" := by
  decide

/-! ## Claim C4 — digest round-trip and mismatch -/

/-- C4 counterexample: the claim "for every pair of distinct secrets
`s1 ≠ s2`, `verify(s1, digest(s2))` returns false" is false over the domain
of `verify_otp`/`hash_otp` (arbitrary byte strings): SHA-256 maps infinitely
many inputs into the finite set of 32-byte digests, so two distinct secrets
with the same digest — hence verifying against each other — exist. -/
theorem C4_counterexample_digest_collision :
    ∃ s1 s2 : List Nat, s1 ≠ s2 ∧ verify_otp s1 (hash_otp s2) = true := by
  obtain ⟨s1, s2, hne, heq⟩ := Finite.exists_ne_map_eq_of_infinite shaFin
  refine ⟨s1, s2, hne, ?_⟩
  have hval : digestToNat (sha256 s1) = digestToNat (sha256 s2) := by
    have h := congrArg Fin.val heq
    simpa only [shaFin] using h
  have hsha : sha256 s1 = sha256 s2 :=
    digestToNat_inj (sha256 s1) (sha256 s2) (by rw [sha256_length, sha256_length])
      (sha256_mem_lt s1) (sha256_mem_lt s2) hval
  have hhash : hash_otp s1 = hash_otp s2 := by
    unfold hash_otp
    rw [hsha]
  show constant_time_eq (hash_otp s1) (hash_otp s2) = true
  rw [hhash]
  exact constant_time_eq_self (hash_otp s2)

/-- C4 (amended): for every secret `s`, `verify(s, digest(s))` returns true;
and `verify(s1, digest(s2))` returns false whenever the digests of `s1` and
`s2` differ (it returns true exactly on a digest collision, and colliding
pairs of distinct secrets exist). -/
theorem C4_verify_digest_amended (s1 s2 : List Nat) :
    verify_otp s1 (hash_otp s1) = true ∧
    (hash_otp s1 ≠ hash_otp s2 → verify_otp s1 (hash_otp s2) = false) := by
  constructor
  · exact constant_time_eq_self (hash_otp s1)
  · intro hne
    cases hct : verify_otp s1 (hash_otp s2) with
    | false => rfl
    | true => exact absurd ((constant_time_eq_iff _ _).mp hct) hne

set_option maxRecDepth 100000 in
/-- Witness for C4: evaluated at the concrete secrets `"123456"` and
`"654321"`, whose digests differ. -/
theorem C4_verify_digest_amended_witness :
    verify_otp (ascii "123456") (hash_otp (ascii "123456")) = true ∧
    verify_otp (ascii "123456") (hash_otp (ascii "654321")) = false :=
  ⟨(C4_verify_digest_amended (ascii "123456") (ascii "654321")).1,
   (C4_verify_digest_amended (ascii "123456") (ascii "654321")).2 (by decide)⟩

/-! ## Claim C1 — the Challenge Orchestrator decision table -/

/-- C1: `handle_define_challenge` follows the four-row decision table on the
session history: no prior `CUSTOM_CHALLENGE` entry → issue a new challenge
(`issue_tokens = false`, `fail_authentication = false`); entries exist and
the most recent has result `true` → accept and issue tokens; result `false`
→ reject; missing result → reject (in the embedding, as in the source event
type, `challenge_result` is a plain boolean, so the last row is the
defensive, unreachable `_` arm of the source match). -/
theorem C1_orchestrator_decision_table (event : DefineAuthEvent) :
    (has_custom_challenge event.session = false →
      handle_define_challenge event = ⟨some CUSTOM, false, false⟩) ∧
    (has_custom_challenge event.session = true →
      ((last_custom event.session).map (fun r => r.challenge_result) = some true →
        handle_define_challenge event = ⟨none, true, false⟩) ∧
      ((last_custom event.session).map (fun r => r.challenge_result) = some false →
        handle_define_challenge event = ⟨none, false, true⟩) ∧
      ((last_custom event.session).map (fun r => r.challenge_result) = none →
        handle_define_challenge event = ⟨none, false, true⟩)) := by
  constructor
  · intro hc
    simp [handle_define_challenge, hc]
  · intro hc
    refine ⟨fun hr => ?_, fun hr => ?_, fun hr => ?_⟩ <;>
      simp [handle_define_challenge, hc, hr]

def evC1 : DefineAuthEvent :=
  ⟨[], [], none, [some ⟨some CUSTOM, true, none⟩]⟩

/-- Witness for C1: a session whose only entry is a succeeded
`CUSTOM_CHALLENGE` is accepted with tokens. -/
theorem C1_orchestrator_decision_table_witness :
    has_custom_challenge evC1.session = true ∧
    (last_custom evC1.session).map (fun r => r.challenge_result) = some true ∧
    handle_define_challenge evC1 = ⟨none, true, false⟩ :=
  ⟨by decide, by decide,
    ((C1_orchestrator_decision_table evC1).2 (by decide)).1 (by decide)⟩

/-! ## Claim C10 — the decide output depends only on the session -/

/-- C10: the decide handler's response is a function of the session history
alone — two events with identical sessions but arbitrary user attributes,
client metadata and user name get identical responses — and a missing email
is replaced by a placeholder by `extract_email` rather than causing an
error. -/
theorem C10_decide_depends_only_on_session :
    (∀ e1 e2 : DefineAuthEvent, e1.session = e2.session →
      handle_define_challenge e1 = handle_define_challenge e2) ∧
    (∀ e : DefineAuthEvent, lookupA e.user_attributes (ascii "email") = none →
      lookupA e.client_metadata (ascii "email") = none → e.user_name = none →
      extract_email e = ascii "debug@placeholder.com") := by
  constructor
  · intro e1 e2 h
    simp only [handle_define_challenge, h]
  · intro e h1 h2 h3
    simp [extract_email, h1, h2, h3]

def evC10a : DefineAuthEvent :=
  ⟨[(ascii "email", ascii "a@x.com")], [], some (ascii "a@x.com"), []⟩

def evC10b : DefineAuthEvent :=
  ⟨[], [(ascii "other", ascii "1")], none, []⟩

/-- Witness for C10: two concrete events differing in every non-session field
(one of them with no email anywhere) get the same response, and the
email-less one falls back to the placeholder. -/
theorem C10_decide_depends_only_on_session_witness :
    handle_define_challenge evC10a = handle_define_challenge evC10b ∧
    extract_email evC10b = ascii "debug@placeholder.com" :=
  ⟨C10_decide_depends_only_on_session.1 evC10a evC10b rfl,
   C10_decide_depends_only_on_session.2 evC10b (by decide) (by decide) rfl⟩

/-! ## Claim C5 — trigger handlers degrade internal errors -/

/-- C5 counterexample: on an inner error the decide trigger handler does not
reject — it issues a fresh challenge with `fail_authentication = false`,
whereas the claim requires `fail_authentication = true` for decide. -/
theorem C5_counterexample_decide_error_issues_challenge :
    define_function_handler (.error (.InternalError [])) = ⟨some CUSTOM, false, false⟩ ∧
    (define_function_handler (.error (.InternalError []))).fail_authentication = false :=
  ⟨rfl, rfl⟩

/-- C5 (amended): on any internal error both trigger handlers still return a
syntactically valid response rather than a transport-level failure: the
decide handler issues a new `CUSTOM_CHALLENGE` with `issue_tokens = false`
and `fail_authentication = false` (not a rejection), and the issue handler
returns empty public and private challenge parameters with metadata
`"ERROR"`. -/
theorem C5_trigger_error_responses (err : AuthError) :
    define_function_handler (.error err) = ⟨some CUSTOM, false, false⟩ ∧
    (create_function_handler (.error err)).public_challenge_parameters = [] ∧
    (create_function_handler (.error err)).private_challenge_parameters = [] ∧
    (create_function_handler (.error err)).challenge_metadata = some (ascii "ERROR") :=
  ⟨rfl, rfl, rfl, rfl⟩

/-! ## Claim C2 — expiry semantics of verification -/

/-- C2: for a stored challenge record and any candidate answer, verification
at `now > expiresAt` returns `Ok(false)` whatever the outcome of the
best-effort delete (which is attempted whenever the answer passed the format
check and is never propagated); and at `now ≤ expiresAt` a well-formed
answer whose digest matches, with the required delete succeeding, returns
`Ok(true)`. -/
theorem C2_verify_expiry (event : VerifyAuthEvent) (otpTable : List OTPRecord) (now : Int)
    (deleteRes updateRes : Except AuthError Unit) (email answer : List Nat)
    (record : OTPRecord)
    (hmail : verify_extract_email event = .ok email)
    (hans : event.challenge_answer = some answer)
    (hrec : get_otp otpTable email = some record) :
    (now > record.expires_at →
      (handle_verify_challenge event otpTable now deleteRes updateRes).result = .ok false ∧
      ((answer.length != 6 || !(answer.all is_ascii_digit)) = false →
        VerifyAction.deleteOtp email ∈
          (handle_verify_challenge event otpTable now deleteRes updateRes).actions)) ∧
    (now ≤ record.expires_at →
      (answer.length != 6 || !(answer.all is_ascii_digit)) = false →
      verify_otp answer record.otp_hash = true →
      deleteRes = .ok () →
      (handle_verify_challenge event otpTable now deleteRes updateRes).result = .ok true) := by
  constructor
  · intro hexp
    cases hfmt : (answer.length != 6 || !(answer.all is_ascii_digit)) with
    | true =>
      constructor
      · simp [handle_verify_challenge, hmail, hans, hrec, hfmt]
      · intro hff
        simp [hfmt] at hff
    | false =>
      constructor
      · simp [handle_verify_challenge, hmail, hans, hrec, hfmt, hexp]
      · intro _
        simp [handle_verify_challenge, hmail, hans, hrec, hfmt, hexp]
  · intro hnow hfmt hver hdel
    have hnexp : ¬ (now > record.expires_at) := not_lt.mpr hnow
    subst hdel
    simp [handle_verify_challenge, hmail, hans, hrec, hfmt, hnexp, hver]

def evC2 : VerifyAuthEvent :=
  ⟨[(ascii "email", ascii "a@x.com")], none, some (ascii "123456")⟩

def recC2 : OTPRecord :=
  ⟨ascii "a@x.com", hash_otp (ascii "123456"), 700, 1000, 4600, ascii "ch-1", 0⟩

set_option maxRecDepth 100000 in
/-- Witness for C2: with the record expiring at 1000 and correct answer
`"123456"`, verification at 1001 returns false (even with a failing delete),
and at 1000 returns true. -/
theorem C2_verify_expiry_witness :
    (handle_verify_challenge evC2 [recC2] 1001 (.error (.DynamoDBError [])) (.ok ())).result =
      .ok false ∧
    (handle_verify_challenge evC2 [recC2] 1000 (.ok ()) (.ok ())).result = .ok true := by
  constructor
  · exact ((C2_verify_expiry evC2 [recC2] 1001 (.error (.DynamoDBError [])) (.ok ())
      (ascii "a@x.com") (ascii "123456") recC2 rfl rfl rfl).1 (by decide)).1
  · exact (C2_verify_expiry evC2 [recC2] 1000 (.ok ()) (.ok ())
      (ascii "a@x.com") (ascii "123456") recC2 rfl rfl rfl).2 (by decide) (by decide)
      (by decide) rfl

/-! ## Claim C3 — sliding-window rate limiting -/

/-- C3: the rate-limit check counts exactly the identity's entries with
`requestedAt > now - 900` and allows issuance iff that count is below 3;
accordingly the issuance path fails with `RateLimitExceeded` when three
entries are in the window (the 4th request), and proceeds once fewer than
three remain (the oldest having left the window). -/
theorem C3_rate_limit_window (table : List RateLimitRecord) (email : List Nat) (now : Int) :
    (check_rate_limit table email now = true ↔
      (table.filter (fun r =>
        r.email == email && decide (r.request_timestamp > now - 900))).length < 3) ∧
    ((table.filter (fun r =>
        r.email == email && decide (r.request_timestamp > now - 900))).length ≥ 3 →
      ∃ msg, create_rate_limit_stage table email now = .error (.RateLimitExceeded msg)) ∧
    ((table.filter (fun r =>
        r.email == email && decide (r.request_timestamp > now - 900))).length < 3 →
      create_rate_limit_stage table email now = .ok ()) := by
  have hq : queryRateLimit table email now =
      table.filter (fun r => r.email == email && decide (r.request_timestamp > now - 900)) := by
    unfold queryRateLimit
    norm_num
  refine ⟨?_, ?_, ?_⟩
  · unfold check_rate_limit
    rw [hq]
    by_cases hlen : (table.filter (fun r =>
        r.email == email && decide (r.request_timestamp > now - 900))).length ≥ 3
    · rw [if_pos hlen]
      constructor
      · intro hf
        exact absurd hf Bool.false_ne_true
      · intro hlt
        exact absurd hlen (by omega)
    · rw [if_neg hlen]
      constructor
      · intro _
        omega
      · intro _
        rfl
  · intro h3
    have hcheck : check_rate_limit table email now = false := by
      unfold check_rate_limit
      rw [hq, if_pos h3]
    unfold create_rate_limit_stage
    rw [hcheck, if_neg Bool.false_ne_true]
    exact ⟨_, rfl⟩
  · intro h3
    have hcheck : check_rate_limit table email now = true := by
      unfold check_rate_limit
      rw [hq, if_neg (by omega)]
    unfold create_rate_limit_stage
    rw [hcheck, if_pos rfl]

def emailC3 : List Nat := ascii "a@x.com"

def tableC3 : List RateLimitRecord :=
  [⟨emailC3, 0, 900⟩, ⟨emailC3, 10, 910⟩, ⟨emailC3, 20, 920⟩]

/-- Witness for C3: after three requests at 0, 10 and 20, a 4th request at
100 is rejected with `RateLimitExceeded`, and a request at 905 (the oldest
entry has left the window) passes the rate-limit stage. -/
theorem C3_rate_limit_window_witness :
    (∃ msg, create_rate_limit_stage tableC3 emailC3 100 = .error (.RateLimitExceeded msg)) ∧
    create_rate_limit_stage tableC3 emailC3 905 = .ok () :=
  ⟨(C3_rate_limit_window tableC3 emailC3 100).2.1 (by decide),
   (C3_rate_limit_window tableC3 emailC3 905).2.2 (by decide)⟩

/-! ## Claim C9 — rate-limit reset ETA -/

theorem int_max?_eq_some {l : List Int} {a : Int} (ha : a ∈ l) (hub : ∀ b ∈ l, b ≤ a) :
    l.max? = some a := by
  have : Std.Antisymm (α := Int) (· ≤ ·) := ⟨fun h h' => le_antisymm h h'⟩
  rw [List.max?_eq_some_iff]
  · exact ⟨ha, hub⟩
  · exact fun x => le_refl x
  · exact fun x y => max_choice x y
  · exact fun x y b => max_le_iff

def tableC9 : List RateLimitRecord :=
  [⟨ascii "a@x.com", 0, 900⟩, ⟨ascii "a@x.com", 100, 1000⟩]

/-- C9 counterexample: with in-window entries at `requestedAt` 0 and 100 and
`now = 200`, the code returns `some 800` — computed from the most recent
entry (`100 + 900 - 200`) — not `some 700` (`0 + 900 - 200`), which the
claim's "oldest in-window entry" rule would require. -/
theorem C9_counterexample_reset_eta_most_recent :
    get_rate_limit_reset_time tableC9 (ascii "a@x.com") 200 = some 800 ∧
    (0 : Int) + 900 - 200 = 700 := by
  constructor
  · decide
  · norm_num

/-- C9 (amended): with at least one in-window entry, the reset ETA is the
number of seconds until the most recent (greatest-`requestedAt`) in-window
entry falls out of the window (`requestedAt + 900 - now`, necessarily
positive for an in-window entry so the clamp at 0 is vacuous); with no
in-window entries it returns `none`. -/
theorem C9_reset_eta_amended (table : List RateLimitRecord) (email : List Nat) (now : Int) :
    (queryRateLimit table email now = [] →
      get_rate_limit_reset_time table email now = none) ∧
    (∀ r ∈ queryRateLimit table email now,
      (∀ s ∈ queryRateLimit table email now, s.request_timestamp ≤ r.request_timestamp) →
      get_rate_limit_reset_time table email now = some (r.request_timestamp + 900 - now)) := by
  constructor
  · intro h
    unfold get_rate_limit_reset_time
    rw [h]
    rfl
  · intro r hr hub
    have hmax : ((queryRateLimit table email now).map (fun x => x.request_timestamp)).max? =
        some r.request_timestamp := by
      apply int_max?_eq_some
      · exact List.mem_map_of_mem _ hr
      · intro b hb
        obtain ⟨s, hs, rfl⟩ := List.mem_map.mp hb
        exact hub s hs
    have hin : r.request_timestamp > now - 15 * 60 := by
      have hmem := List.mem_filter.mp hr
      have hp := hmem.2
      rw [Bool.and_eq_true] at hp
      exact of_decide_eq_true hp.2
    unfold get_rate_limit_reset_time
    rw [hmax]
    show some (max (r.request_timestamp + 15 * 60 - now) 0) =
      some (r.request_timestamp + 900 - now)
    have h0 : (0 : Int) ≤ r.request_timestamp + 15 * 60 - now := by omega
    rw [max_eq_left h0]
    have heq : r.request_timestamp + 15 * 60 - now = r.request_timestamp + 900 - now := by
      norm_num
    rw [heq]

/-- Witness for C9: applying the amended rule to the most recent in-window
entry of `tableC9` at `now = 200` yields `some 800`. -/
theorem C9_reset_eta_amended_witness :
    get_rate_limit_reset_time tableC9 (ascii "a@x.com") 200 = some 800 :=
  (C9_reset_eta_amended tableC9 (ascii "a@x.com") 200).2 ⟨ascii "a@x.com", 100, 1000⟩
    (by decide) (by decide)

/-! ## Claim C6 — status advancement has no guard (code bug) -/

def userC6 : UserProfile :=
  { user_id := ascii "u-1"
    email := ascii "a@x.com"
    status := .Active
    full_name := none
    content_description := none
    content_link := none
    stripe_account_id := none
    created_at := 0
    updated_at := 0
    reviewed_by := none
    reviewed_at := none
    rejection_reason := none }

/-- C6 (code bug): `update_user_status_to_need_user_info` checks only that
the user exists — evaluated on a user whose status is `ACTIVE`, it succeeds
and overwrites the status with `REGISTRATION_NEED_USER_INFO`, moving the
status backwards, whereas the claim (and spec §4.4/§3) requires a no-op for
any current status other than `UNVERIFIED`. -/
theorem C6_status_update_unguarded :
    update_user_status_to_need_user_info [userC6] (ascii "a@x.com") 5 =
      .ok [{ userC6 with status := .RegistrationNeedUserInfo, updated_at := 5 }] ∧
    userC6.status = .Active := by
  constructor
  · rfl
  · rfl

/-! ## Claim C7 — first-contact user creation -/

/-- C7: for a first-contact identity (no stored user with that email), the
provisioning stage of `handle_create_challenge` creates and returns a user
whose `userId` is the caller-supplied Cognito subject identifier and whose
status is `UNVERIFIED` (`REGISTRATION_EMAIL_NOT_VERIFIED`). -/
theorem C7_create_user_first_contact (usersTable : List UserProfile)
    (email external_id : List Nat) (now : Int)
    (habsent : get_user_by_email usersTable email = none) :
    create_challenge_user_stage usersTable email (some external_id) now =
      .ok (create_user email external_id now) ∧
    (create_user email external_id now).user_id = external_id ∧
    (create_user email external_id now).status = .RegistrationEmailNotVerified := by
  refine ⟨?_, rfl, rfl⟩
  unfold create_challenge_user_stage
  rw [habsent]

/-- Witness for C7: creating `a@x.com` with Cognito sub `cognito-sub-1` in an
empty directory. -/
theorem C7_create_user_first_contact_witness :
    create_challenge_user_stage [] (ascii "a@x.com") (some (ascii "cognito-sub-1")) 3 =
      .ok (create_user (ascii "a@x.com") (ascii "cognito-sub-1") 3) :=
  (C7_create_user_first_contact [] (ascii "a@x.com") (ascii "cognito-sub-1") 3 rfl).1

/-! ## Claim C8 — the generated secret's format and range -/

theorem natDigitsAux_digits (fuel : Nat) : ∀ n, ∀ c ∈ natDigitsAux fuel n, 48 ≤ c ∧ c ≤ 57 := by
  induction fuel with
  | zero =>
    intro n c hc
    simp [natDigitsAux] at hc
  | succ fuel ih =>
    intro n c hc
    simp only [natDigitsAux] at hc
    by_cases h10 : n < 10
    · rw [if_pos h10] at hc
      simp at hc
      omega
    · rw [if_neg h10] at hc
      rcases List.mem_append.mp hc with h1 | h1
      · exact ih (n / 10) c h1
      · simp at h1
        have hm : n % 10 < 10 := Nat.mod_lt _ (by decide)
        omega

theorem natDigitsAux_foldl (fuel : Nat) : ∀ n acc, n < fuel →
    (natDigitsAux fuel n).foldl (fun acc c => acc * 10 + (c - 48)) acc =
      acc * 10 ^ (natDigitsAux fuel n).length + n := by
  induction fuel with
  | zero =>
    intro n acc h
    exact absurd h (Nat.not_lt_zero n)
  | succ fuel ih =>
    intro n acc h
    simp only [natDigitsAux]
    by_cases h10 : n < 10
    · rw [if_pos h10]
      simp only [List.foldl_cons, List.foldl_nil, List.length_cons, List.length_nil]
      have h48 : 48 + n - 48 = n := by omega
      rw [h48]
      norm_num
    · rw [if_neg h10]
      have hlt : n / 10 < fuel := by
        have hd : n / 10 < n := Nat.div_lt_self (by omega) (by decide)
        omega
      rw [List.foldl_append, ih (n / 10) acc hlt]
      simp only [List.foldl_cons, List.foldl_nil, List.length_append, List.length_cons,
        List.length_nil]
      have hmod : 48 + n % 10 - 48 = n % 10 := by omega
      rw [hmod, pow_succ, ← Nat.mul_assoc]
      have hdm := Nat.div_add_mod n 10
      generalize acc * 10 ^ (natDigitsAux fuel (n / 10)).length = X
      omega

theorem natDigitsAux_length_le (fuel : Nat) : ∀ n k, n < 10 ^ k → 1 ≤ k →
    (natDigitsAux fuel n).length ≤ k := by
  induction fuel with
  | zero =>
    intro n k _ _
    simp [natDigitsAux]
  | succ fuel ih =>
    intro n k hn hk
    simp only [natDigitsAux]
    by_cases h10 : n < 10
    · rw [if_pos h10]
      simpa using hk
    · rw [if_neg h10]
      have hk2 : 2 ≤ k := by
        by_contra hcon
        have hk1 : k = 1 := by omega
        subst hk1
        norm_num at hn
        omega
      have hdiv : n / 10 < 10 ^ (k - 1) := by
        rw [Nat.div_lt_iff_lt_mul (by decide : 0 < 10)]
        have hpow : 10 ^ (k - 1) * 10 = 10 ^ k := by
          rw [← pow_succ]
          congr 1
          omega
        omega
      have hrec := ih (n / 10) (k - 1) hdiv (by omega)
      simp only [List.length_append, List.length_cons, List.length_nil]
      omega

theorem foldl_dec_replicate (m : Nat) :
    (List.replicate m 48).foldl (fun acc c => acc * 10 + (c - 48)) 0 = 0 := by
  induction m with
  | zero => rfl
  | succ m ih =>
    rw [List.replicate_succ, List.foldl_cons]
    simpa using ih

theorem decimalValue_generate_otp (draw : Nat) :
    decimalValue (generate_otp draw) = 100000 + draw % 900000 := by
  have hrange : gen_range 100000 999999 draw = 100000 + draw % 900000 := by
    unfold gen_range
    norm_num
  unfold generate_otp zeroPad6 decimalValue natDigits
  rw [List.foldl_append, foldl_dec_replicate,
    natDigitsAux_foldl (gen_range 100000 999999 draw + 1) (gen_range 100000 999999 draw) 0
      (Nat.lt_succ_self _), hrange]
  simp

theorem generate_otp_format (draw : Nat) :
    (generate_otp draw).length = 6 ∧ ∀ c ∈ generate_otp draw, 48 ≤ c ∧ c ≤ 57 := by
  have hv : gen_range 100000 999999 draw < 10 ^ 6 := by
    unfold gen_range
    have hm : draw % (999999 - 100000 + 1) < 999999 - 100000 + 1 :=
      Nat.mod_lt _ (by norm_num)
    norm_num at hm ⊢
    omega
  have hlen : (natDigitsAux (gen_range 100000 999999 draw + 1)
      (gen_range 100000 999999 draw)).length ≤ 6 :=
    natDigitsAux_length_le _ _ 6 hv (by norm_num)
  constructor
  · unfold generate_otp zeroPad6 natDigits
    rw [List.length_append, List.length_replicate]
    omega
  · intro c hc
    unfold generate_otp zeroPad6 natDigits at hc
    rcases List.mem_append.mp hc with h | h
    · have h48 := List.eq_of_mem_replicate h
      omega
    · exact natDigitsAux_digits _ _ c h

/-- C8 counterexample: no random draw yields a secret of value below 100000 —
the generator draws from `100000..=999999`, so the low 100000 values of the
claimed full interval `[000000, 999999]` are not possible outputs. -/
theorem C8_counterexample_no_low_values :
    (∃ draw : Nat, decimalValue (generate_otp draw) < 100000) = False := by
  apply eq_false
  rintro ⟨draw, h⟩
  rw [decimalValue_generate_otp] at h
  omega

/-- C8 (amended): every generated secret is a 6-character string of ASCII
decimal digits whose value lies in (and, as the draw varies, ranges
uniformly over) `[100000, 999999]`; values below 100000 never occur, so the
left-zero-padding of the format string is vacuous. -/
theorem C8_generate_otp_amended :
    (∀ draw : Nat, (generate_otp draw).length = 6 ∧
      (∀ c ∈ generate_otp draw, 48 ≤ c ∧ c ≤ 57) ∧
      100000 ≤ decimalValue (generate_otp draw) ∧
      decimalValue (generate_otp draw) ≤ 999999) ∧
    (∀ v : Nat, 100000 ≤ v → v ≤ 999999 →
      decimalValue (generate_otp (v - 100000)) = v) := by
  constructor
  · intro draw
    obtain ⟨hlen, hdig⟩ := generate_otp_format draw
    refine ⟨hlen, hdig, ?_, ?_⟩ <;> rw [decimalValue_generate_otp]
    · omega
    · have hm : draw % 900000 < 900000 := Nat.mod_lt _ (by norm_num)
      omega
  · intro v hlo hhi
    rw [decimalValue_generate_otp]
    have hm : (v - 100000) % 900000 = v - 100000 := Nat.mod_eq_of_lt (by omega)
    omega

/-- Witness for C8: the draw 0 gives the 6-digit secret of value 100000, and
the value 223456 is attained by draw 123456. -/
theorem C8_generate_otp_amended_witness :
    (generate_otp 0).length = 6 ∧ decimalValue (generate_otp 123456) = 223456 :=
  ⟨(C8_generate_otp_amended.1 0).1,
   C8_generate_otp_amended.2 223456 (by norm_num) (by norm_num)⟩
